import Mathlib

/-!
Verification model of the channel-surf video player UI
(src/src/components/VideoPlayer.tsx and src/src/components/ChannelControls.tsx).

The player lifecycle manager is embedded shallowly: React state is an explicit
record, engine/DOM side effects are recorded as an event list, and the
possible outcomes of the asynchronous engine calls (destroy throwing, load
rejecting, library or browser support missing) are explicit boolean
parameters.  For the channel-change race analysis the asynchronous control
flow is cut at its `await` points into atomic segments and run under an
explicit interleaving schedule.
-/

namespace ChannelSurf

/-! ## JavaScript string splitting

`String.prototype.split` with a single-character separator, as used by
`channel.drmKey.split(':')` in `initPlayer`. -/

/-- Worker for `jsSplit`: walks the character list, cutting at the
separator; `acc` holds the characters of the current field in reverse. -/
def jsSplitAux (c : Char) : List Char → List Char → List String
  | [], acc => [String.mk acc.reverse]
  | x :: xs, acc =>
    if x = c then String.mk acc.reverse :: jsSplitAux c xs []
    else jsSplitAux c xs (x :: acc)

/-- JavaScript `s.split(c)` for a one-character separator `c`. -/
def jsSplit (s : String) (c : Char) : List String :=
  jsSplitAux c s.data []

/-- `const [keyId, key] = channel.drmKey.split(':')` — array destructuring
yields `undefined` (here `none`) for a missing component. -/
def parseDrmKey (k : String) : Option String × Option String :=
  ((jsSplit k ':').get? 0, (jsSplit k ':').get? 1)

/-! ## Channel descriptors and the engine configuration object -/

/-- A channel as consumed by the player (`@/lib/channels`): playback URL and
optional DRM key string encoded as `keyId:key`. -/
structure Channel where
  id : Nat
  name : String
  url : String
  drmKey : Option String
deriving DecidableEq

/-- Retry parameters passed to the engine; the DRM block omits `timeout`. -/
structure RetryParameters where
  maxAttempts : Nat
  baseDelay : Nat
  backoffFactor : Nat
  timeout : Option Nat
deriving DecidableEq

/-- The `abr` options block of `player.configure`. -/
structure AbrConfig where
  enabled : Bool
  defaultBandwidthEstimate : Nat
  switchInterval : Nat
  bandwidthUpgradeTarget : Rat
  bandwidthDowngradeTarget : Rat
deriving DecidableEq

/-- The `streaming` options block of `player.configure`. -/
structure StreamingConfig where
  bufferingGoal : Nat
  rebufferingGoal : Nat
  retryParameters : RetryParameters
deriving DecidableEq

/-- The `drm` options block: clear keys as keyId/key pairs (the key may be
`undefined` when destructuring found no second component). -/
structure DrmConfig where
  clearKeys : List (String × Option String)
  retryParameters : RetryParameters
deriving DecidableEq

/-- A `player.configure` argument: either the fixed abr/streaming options or
a DRM options object. -/
inductive ShakaConfig where
  | baseOptions (abr : AbrConfig) (streaming : StreamingConfig)
  | drmOptions (drm : DrmConfig)
deriving DecidableEq

/-- The fixed `abr` configuration from `initPlayer` (lines 63-69). -/
def abrDefaults : AbrConfig :=
  { enabled := true
    defaultBandwidthEstimate := 1000000
    switchInterval := 1
    bandwidthUpgradeTarget := 0.85
    bandwidthDowngradeTarget := 0.95 }

/-- The fixed `streaming` configuration from `initPlayer` (lines 70-79). -/
def streamingDefaults : StreamingConfig :=
  { bufferingGoal := 10
    rebufferingGoal := 2
    retryParameters :=
      { maxAttempts := 5, baseDelay := 1000, backoffFactor := 2, timeout := some 30000 } }

/-- The DRM retry parameters from `initPlayer` (lines 94-98, no timeout). -/
def drmRetryDefaults : RetryParameters :=
  { maxAttempts := 5, baseDelay := 1000, backoffFactor := 2, timeout := none }

/-! ## Player component state and observable events -/

/-- The React state of `VideoPlayer` plus the two refs the handlers read:
whether the video element is mounted (`videoRef.current` non-null) and the
current engine instance (`shakaPlayerRef.current`), identified by a number. -/
structure PlayerState where
  videoBound : Bool
  isPlaying : Bool
  volume : Rat
  isMuted : Bool
  shakaPlayerRef : Option Nat
deriving DecidableEq

/-- Observable side effects of the component: console lines, engine calls and
video-element calls, in program order. -/
inductive Ev where
  | consoleLog (msg : String)
  | consoleError (msg : String)
  | polyfillInstall
  | engineDestroy (p : Nat)
  | engineConstruct (p : Nat)
  | engineConfigure (p : Nat) (cfg : ShakaConfig)
  | addErrorListener (p : Nat)
  | engineLoad (p : Nat) (url : String)
  | videoPlay
  | videoPause
  | setVideoVolume (v : Rat)
deriving DecidableEq

/-- Outcomes of the environment-dependent steps of `initPlayer`: whether the
engine library loaded, whether the browser is supported, and whether the
fallible awaited calls (`destroy`, `load`) throw. -/
structure InitEnv where
  shakaLoaded : Bool
  browserSupported : Bool
  destroyFails : Bool
  loadFails : Bool
deriving DecidableEq

def errDestroyMsg : String := "Error destroying player:"
def errInitMsg : String := "Error initializing player:"
def errLoadMsg : String := "Error loading video:"
def logLoadedMsg : String := "Video loaded successfully"
def logDrmPrefix : String := "Configuring DRM with key: "
def logLoadingPrefix : String := "Loading URL: "

/-- `destroyPlayer` (lines 33-42): if a session exists, await its `destroy`;
on success the reference is nulled, a thrown error is caught and logged —
note the null assignment sits inside the `try`, before the `catch`. -/
def destroyPlayer (destroyFails : Bool) (s : PlayerState) : PlayerState × List Ev :=
  match s.shakaPlayerRef with
  | none => (s, [])
  | some p =>
    if destroyFails then
      (s, [Ev.engineDestroy p, Ev.consoleError errDestroyMsg])
    else
      ({ s with shakaPlayerRef := none }, [Ev.engineDestroy p])

/-- The DRM options object built at lines 89-100: `clearKeys` maps the first
component of the split key string to the second.  The split list is never
empty, so the JavaScript computed property name is the first component; the
`getD` default mirrors the coercion of `undefined` and is unreachable. -/
def drmConfigOf (k : String) : DrmConfig :=
  { clearKeys := [((parseDrmKey k).1.getD "undefined", (parseDrmKey k).2)]
    retryParameters := drmRetryDefaults }

/-- `initPlayer` (lines 44-117): environment checks, polyfills, destroy of
any existing session, construction and configuration of a new engine
instance, optional DRM configuration, then load; a load rejection is caught
and logged in the inner `try`, every other throw by the outer one. -/
def initPlayer (ch : Channel) (env : InitEnv) (newId : Nat) (s : PlayerState) :
    PlayerState × List Ev :=
  if !s.videoBound || !env.shakaLoaded then (s, [])
  else if !env.browserSupported then
    (s, [Ev.polyfillInstall, Ev.consoleError errInitMsg])
  else
    let d := destroyPlayer env.destroyFails s
    let s2 := { d.1 with shakaPlayerRef := some newId }
    let pre := Ev.polyfillInstall :: d.2 ++
      [Ev.engineConstruct newId,
       Ev.engineConfigure newId (ShakaConfig.baseOptions abrDefaults streamingDefaults),
       Ev.addErrorListener newId]
    let drmEvs :=
      match ch.drmKey with
      | none => []
      | some k =>
        [Ev.consoleLog (logDrmPrefix ++ k),
         Ev.engineConfigure newId (ShakaConfig.drmOptions (drmConfigOf k))]
    let loadEvs := [Ev.consoleLog (logLoadingPrefix ++ ch.url), Ev.engineLoad newId ch.url]
    if env.loadFails then
      (s2, pre ++ drmEvs ++ loadEvs ++ [Ev.consoleError errLoadMsg])
    else
      ({ s2 with isPlaying := true },
       pre ++ drmEvs ++ loadEvs ++ [Ev.consoleLog logLoadedMsg, Ev.videoPlay])

/-- The `useEffect` on `[volume]` (lines 119-124): when the video element is
mounted, push the volume to it and derive `isMuted` from `volume === 0`. -/
def volumeEffect (s : PlayerState) : PlayerState × List Ev :=
  if s.videoBound then
    ({ s with isMuted := decide (s.volume = 0) }, [Ev.setVideoVolume s.volume])
  else (s, [])

/-- `setVolume` followed by the `[volume]` effect; with an identical value
React bails out and the effect does not re-run. -/
def setVolumeState (v : Rat) (s : PlayerState) : PlayerState × List Ev :=
  if v = s.volume then (s, [])
  else volumeEffect { s with volume := v }

/-- The slider's `onValueChange` (line 201): `setVolume(value[0] / 100)`. -/
def sliderChange (raw : Nat) (s : PlayerState) : PlayerState × List Ev :=
  setVolumeState ((raw : Rat) / 100) s

/-- `togglePlay` (lines 139-147): no-op without a video element, otherwise
pause or play the element and flip the flag. -/
def togglePlay (s : PlayerState) : PlayerState × List Ev :=
  if !s.videoBound then (s, [])
  else if s.isPlaying then ({ s with isPlaying := false }, [Ev.videoPause])
  else ({ s with isPlaying := true }, [Ev.videoPlay])

/-- `toggleMute` (lines 149-159): no-op without a video element; otherwise
set the volume state and the element volume to 1 when muted and to 0 when
not, flip `isMuted`, and let the `[volume]` effect run afterwards (it
re-derives the same `isMuted` value). -/
def toggleMute (s : PlayerState) : PlayerState × List Ev :=
  if !s.videoBound then (s, [])
  else
    let newVol : Rat := if s.isMuted then 1 else 0
    let s1 := { s with volume := newVol, isMuted := !s.isMuted }
    if newVol = s.volume then (s1, [Ev.setVideoVolume newVol])
    else
      let e := volumeEffect s1
      (e.1, Ev.setVideoVolume newVol :: e.2)

/-- Predicate picking engine `load` calls out of an event trace. -/
def isEngineLoad : Ev → Bool
  | Ev.engineLoad _ _ => true
  | _ => false

/-- Predicate picking `console.error` lines out of an event trace. -/
def isConsoleError : Ev → Bool
  | Ev.consoleError _ => true
  | _ => false

/-! ## The controls overlay (ChannelControls.tsx) -/

/-- The outbound callbacks a control can dispatch. -/
inductive ControlCallback where
  | onPrevious
  | onNext
  | onShowChannels
  | onTogglePlay
  | onToggleMute
  | onVolumeChange
deriving DecidableEq

/-- Rendered nodes of the overlay: the channel-name badge and icon buttons
wired to a callback. -/
inductive ControlsNode where
  | nameBadge (channelName : String)
  | iconButton (icon : String) (onClick : ControlCallback)
deriving DecidableEq

def chevronLeftIcon : String := "ChevronLeft"
def chevronRightIcon : String := "ChevronRight"
def listIcon : String := "List"

/-- The `ChannelControls` component (lines 11-54): a badge showing the
channel name and three buttons wired to `onPrevious`, `onNext`,
`onShowChannels`. -/
def channelControls (channelName : String) : List ControlsNode :=
  [ControlsNode.nameBadge channelName,
   ControlsNode.iconButton chevronLeftIcon ControlCallback.onPrevious,
   ControlsNode.iconButton chevronRightIcon ControlCallback.onNext,
   ControlsNode.iconButton listIcon ControlCallback.onShowChannels]

/-- The callbacks dispatched by a rendered overlay, in render order. -/
def dispatched (nodes : List ControlsNode) : List ControlCallback :=
  nodes.filterMap fun n =>
    match n with
    | ControlsNode.iconButton _ cb => some cb
    | _ => none

/-! ## Interleaving model of channel changes

`initNewChannel` (lines 126-137) and the effect cleanup each run as an
unsynchronised `async` function; their executions interleave at `await`
points.  We cut the code into the atomic segments between awaits and run a
set of pending executions under an explicit schedule.  Engine identities are
numbers; the session created by a change corresponds to its channel by
construction, so channel payloads (URLs) are elided here — they do not
affect binding.  Destroys succeed in this model (failure is analysed on the
lifecycle model above). -/

/-- The video-surface view shared by all pending executions: the
`shakaPlayerRef` and the engine instances constructed and not yet
destroyed — i.e. still attached to the single video element. -/
structure SurfState where
  ref : Option Nat
  live : List Nat
deriving DecidableEq

/-- Engine-level happenings along a run. -/
inductive CEvent where
  | destroyCall (p : Nat)
  | created (p : Nat)
  | loadCall (p : Nat)
  | loadResolved (p : Nat) (ok : Bool)
deriving DecidableEq

/-- One atomic segment (code between `await` points) of a pending
execution. -/
inductive SegOp where
  | checkAndDestroy
  | destroyResolve
  | createLoad (id : Nat)
  | createOnly (id : Nat)
  | drmResolveLoad (id : Nat)
  | loadResolve (id : Nat)
deriving DecidableEq

/-- Effect of a segment on the surface, given the execution's local
`pend` (the session its `destroyPlayer` call captured, if any):
`checkAndDestroy` is the synchronous head of `destroyPlayer` (read the ref,
call `destroy` on it); `destroyResolve` is its continuation after the await
(the engine is down, the ref is nulled); `createLoad` is the block after
`await destroyPlayer()` in `initPlayer` for a channel without DRM
(construct, configure, call `load`); `createOnly`/`drmResolveLoad` split
that block at the awaited DRM `configure`; `loadResolve` is the inner
try/catch continuation — the load succeeded iff the instance is still
live. -/
def applyOp (op : SegOp) (pend : Option Nat) (s : SurfState) :
    Option Nat × SurfState × List CEvent :=
  match op with
  | SegOp.checkAndDestroy =>
    match s.ref with
    | some q => (some q, s, [CEvent.destroyCall q])
    | none => (none, s, [])
  | SegOp.destroyResolve =>
    match pend with
    | some q => (none, { ref := none, live := s.live.erase q }, [])
    | none => (none, s, [])
  | SegOp.createLoad id =>
    (pend, { ref := some id, live := s.live ++ [id] }, [CEvent.created id, CEvent.loadCall id])
  | SegOp.createOnly id =>
    (pend, { ref := some id, live := s.live ++ [id] }, [CEvent.created id])
  | SegOp.drmResolveLoad id => (pend, s, [CEvent.loadCall id])
  | SegOp.loadResolve id => (pend, s, [CEvent.loadResolved id (s.live.contains id)])

/-- A pending asynchronous execution: its captured-session local and its
remaining segments. -/
structure Task where
  pend : Option Nat
  segs : List SegOp
deriving DecidableEq

/-- The whole system: the shared surface, the pending executions, and the
event log. -/
structure Sys where
  surf : SurfState
  tasks : List Task
  events : List CEvent
deriving DecidableEq

/-- Segments of one `destroyPlayer()` call (the effect cleanup at
lines 134-136 is exactly this). -/
def destroySegs : List SegOp := [SegOp.checkAndDestroy, SegOp.destroyResolve]

/-- Segments of one `initNewChannel` run (lines 127-130): its own
`destroyPlayer`, then `initPlayer`, whose body again awaits
`destroyPlayer()` before constructing engine `id` and loading. -/
def initNewChannelSegs (drm : Bool) (id : Nat) : List SegOp :=
  destroySegs ++ destroySegs ++
    (if drm then [SegOp.createOnly id, SegOp.drmResolveLoad id]
     else [SegOp.createLoad id]) ++
    [SegOp.loadResolve id]

/-- Run the head segment of a task against the surface. -/
def stepTask (t : Task) (s : SurfState) : Task × SurfState × List CEvent :=
  match t.segs with
  | [] => (t, s, [])
  | op :: rest =>
    let r := applyOp op t.pend s
    ({ pend := r.1, segs := rest }, r.2.1, r.2.2)

/-- Let task `i` take one step. -/
def stepSys (i : Nat) (sys : Sys) : Sys :=
  match sys.tasks.get? i with
  | none => sys
  | some t =>
    let r := stepTask t sys.surf
    { surf := r.2.1, tasks := sys.tasks.set i r.1, events := sys.events ++ r.2.2 }

/-- Run a schedule (the sequence of task indices chosen to step). -/
def runSched (sched : List Nat) (sys : Sys) : Sys :=
  sched.foldl (fun acc i => stepSys i acc) sys

/-- All intermediate systems along a schedule, the initial one included. -/
def traceSched : List Nat → Sys → List Sys
  | [], sys => [sys]
  | i :: r, sys => sys :: traceSched r (stepSys i sys)

/-- A cleanup task: the previous effect's fire-and-forget `destroyPlayer()`. -/
def cleanupTask : Task := { pend := none, segs := destroySegs }

/-- A channel-change task for a DRM-free channel bound to engine `id`. -/
def changeTask (id : Nat) : Task := { pend := none, segs := initNewChannelSegs false id }

/-- Initial system for the rapid double change: a session (engine 0) for the
previously selected channel is settled; changing to channel A spawns the
cleanup of the old effect plus A's `initNewChannel` (engine 1); changing to
B immediately after spawns A's cleanup plus B's `initNewChannel`
(engine 2). -/
def raceInit : Sys :=
  { surf := { ref := some 0, live := [0] }
    tasks := [cleanupTask, changeTask 1, cleanupTask, changeTask 2]
    events := [] }

/-- The microtask interleaving of the rapid double change: all four pending
executions call `destroy` on engine 0 synchronously; when it resolves their
continuations drain in queue order, so both `initNewChannel` runs pass their
inner `await destroyPlayer()` (the ref is already null) before either
constructs, and then both construct. -/
def raceSched : List Nat := [0, 1, 2, 3, 0, 1, 1, 2, 3, 3, 1, 3, 1, 3, 1, 3]

/-! ## Facts about the JavaScript split -/

/-- Splitting a separator-free character list yields one field. -/
theorem jsSplitAux_of_not_mem (c : Char) :
    ∀ (l acc : List Char), c ∉ l → jsSplitAux c l acc = [String.mk (acc.reverse ++ l)]
  | [], acc, _ => by simp [jsSplitAux]
  | x :: xs, acc, h => by
    have hx : ¬x = c := by rintro rfl; exact h (List.mem_cons_self x xs)
    have hxs : c ∉ xs := fun hm => h (List.mem_cons_of_mem _ hm)
    simp [jsSplitAux, hx, jsSplitAux_of_not_mem c xs (x :: acc) hxs]

/-- The first separator cuts off the first field. -/
theorem jsSplitAux_append_sep (c : Char) (l2 : List Char) :
    ∀ (l1 acc : List Char), c ∉ l1 →
      jsSplitAux c (l1 ++ c :: l2) acc = String.mk (acc.reverse ++ l1) :: jsSplitAux c l2 []
  | [], acc, _ => by simp [jsSplitAux]
  | x :: xs, acc, h => by
    have hx : ¬x = c := by rintro rfl; exact h (List.mem_cons_self x xs)
    have hxs : c ∉ xs := fun hm => h (List.mem_cons_of_mem _ hm)
    simp [jsSplitAux, hx, jsSplitAux_append_sep c l2 xs (x :: acc) hxs]

/-- A well-formed `keyId:key` string splits into exactly its two
colon-free components. -/
theorem jsSplit_two (a b : String) (ha : ':' ∉ a.data) (hb : ':' ∉ b.data) :
    jsSplit (a ++ ":" ++ b) ':' = [a, b] := by
  have hd : (a ++ ":" ++ b).data = a.data ++ ':' :: b.data := by
    simp [String.data_append]
  unfold jsSplit
  rw [hd, jsSplitAux_append_sep ':' b.data a.data [] ha,
    jsSplitAux_of_not_mem ':' b.data [] hb]
  simp

/-! ## Concrete fixtures -/

/-- Environment where the library loaded, the browser is supported and the
awaited engine calls succeed. -/
def happyEnv : InitEnv :=
  { shakaLoaded := true, browserSupported := true, destroyFails := false, loadFails := false }

/-- Like `happyEnv`, but `player.load` rejects. -/
def failLoadEnv : InitEnv :=
  { shakaLoaded := true, browserSupported := true, destroyFails := false, loadFails := true }

/-- The initial component state (lines 13-19): video element mounted,
`isPlaying` true, volume 1, not muted, no session. -/
def freshState : PlayerState :=
  { videoBound := true, isPlaying := true, volume := 1, isMuted := false, shakaPlayerRef := none }

/-- A state holding a live session (engine 0). -/
def c1State : PlayerState :=
  { videoBound := true, isPlaying := true, volume := 1, isMuted := false, shakaPlayerRef := some 0 }

/-- A state whose video element is not mounted. -/
def unboundState : PlayerState :=
  { videoBound := false, isPlaying := true, volume := 1, isMuted := false, shakaPlayerRef := some 0 }

/-- A muted state with a non-zero volume field. -/
def mutedState : PlayerState :=
  { videoBound := true, isPlaying := true, volume := 1, isMuted := true, shakaPlayerRef := none }

def demoUrl : String := "https://example/manifest.mpd"
def demoName : String := "Channel One"

/-- A channel without DRM. -/
def demoChannel : Channel := { id := 0, name := demoName, url := demoUrl, drmKey := none }

def c6Key : String := "k1:v1"

/-- The channel of the spec scenario: drmKey `k1:v1`, URL the example
manifest. -/
def c6Channel : Channel := { id := 0, name := demoName, url := demoUrl, drmKey := some c6Key }

def noColonKey : String := "nocolon"

/-- A channel whose DRM key string contains no colon. -/
def c2Channel : Channel := { id := 1, name := demoName, url := demoUrl, drmKey := some noColonKey }

def k1Str : String := "k1"
def v1Str : String := "v1"
def abcStr : String := "abc123"
def beefStr : String := "deadbeef"

/-- Predicate picking engine constructions out of a concurrency event log. -/
def isCreated : CEvent → Bool
  | CEvent.created _ => true
  | _ => false

/-- Predicate picking engine destroy calls out of a concurrency event log. -/
def isDestroyCall : CEvent → Bool
  | CEvent.destroyCall _ => true
  | _ => false

/-! ## Claim theorems -/

/-- Claim C1, counterexample: when the engine's `destroy` throws while a
session (engine 0) exists, the failure is logged and nothing propagates,
but the session reference is NOT cleared — the assignment
`shakaPlayerRef.current = null` sits before the `catch`, so on the failure
path the reference still holds the old session, contradicting the claim
that it is cleared regardless of outcome. -/
theorem c1_refNotClearedOnFailure_cex :
    (destroyPlayer true c1State).1.shakaPlayerRef = some 0
    ∧ (destroyPlayer true c1State).1.shakaPlayerRef ≠ none
    ∧ (destroyPlayer true c1State).2 = [Ev.engineDestroy 0, Ev.consoleError errDestroyMsg] := by
  decide

/-- Claim C1 (amended): while a session exists, a failing destroy is
logged and never thrown upward, and the session reference is cleared
exactly when destroy succeeds — on failure it retains the old session;
a subsequent engine initialization is still never blocked, because
`initPlayer` itself destroys any remaining session and installs the new
instance in the reference. -/
theorem c1_destroyFailure_amended (s : PlayerState) (p newId : Nat) (f : Bool)
    (ch : Channel) (env : InitEnv)
    (hp : s.shakaPlayerRef = some p) (hv : s.videoBound = true)
    (hsl : env.shakaLoaded = true) (hbs : env.browserSupported = true) :
    (destroyPlayer f s).2 =
      (if f then [Ev.engineDestroy p, Ev.consoleError errDestroyMsg] else [Ev.engineDestroy p])
    ∧ (destroyPlayer f s).1 = (if f then s else { s with shakaPlayerRef := none })
    ∧ (initPlayer ch env newId (destroyPlayer f s).1).1.shakaPlayerRef = some newId := by
  cases f <;> cases hdf : env.destroyFails <;> cases hlf : env.loadFails <;>
    simp [destroyPlayer, initPlayer, hp, hv, hsl, hbs, hdf, hlf]

/-- Claim C1, witness: the amended theorem applied to the failing destroy
of engine 0 and a follow-up engine construction with id 5. -/
theorem c1_destroyFailure_amended_witness :
    (destroyPlayer true c1State).2 = [Ev.engineDestroy 0, Ev.consoleError errDestroyMsg]
    ∧ (destroyPlayer true c1State).1 = c1State
    ∧ (initPlayer demoChannel happyEnv 5 (destroyPlayer true c1State).1).1.shakaPlayerRef
        = some 5 := by
  have h := c1_destroyFailure_amended c1State 0 5 true demoChannel happyEnv rfl rfl rfl rfl
  simpa using h

/-- Claim C2: a DRM key string with no colon destructures to the whole
string and `undefined`; the engine is then silently configured with
`clearKeys` mapping the whole string to no key, and no error of any kind
is reported — the code contradicts the spec's stated precondition that
malformed keys are an error condition to surface. -/
theorem c2_malformedKeySilentlyConfigured :
    parseDrmKey noColonKey = (some noColonKey, none)
    ∧ Ev.engineConfigure 2 (ShakaConfig.drmOptions
        { clearKeys := [(noColonKey, none)], retryParameters := drmRetryDefaults })
        ∈ (initPlayer c2Channel happyEnv 2 freshState).2
    ∧ (initPlayer c2Channel happyEnv 2 freshState).2.filter isConsoleError = [] := by
  decide

/-- Claim C3: under the rapid double channel change (to A, then to B while
the destroy of the previous session is still pending), the pending
`initNewChannel` executions both pass their `await destroyPlayer()` while
the reference is already null and then both construct: after everything
settles, engines 1 (channel A) and 2 (channel B) are BOTH live and bound
to the single video surface, both loads succeed, and only the reference
points to B's session — contradicting the claim that the surface is bound
to channel B's session only and that two live engine instances never
coexist. -/
theorem c3_rapidChange_twoLiveEngines :
    (runSched raceSched raceInit).surf.live = [1, 2]
    ∧ (runSched raceSched raceInit).surf.ref = some 2
    ∧ CEvent.loadResolved 1 true ∈ (runSched raceSched raceInit).events
    ∧ CEvent.loadResolved 2 true ∈ (runSched raceSched raceInit).events := by
  decide

/-- Claim C4: in the same rapid double change, at the step where engine 2
attaches to the surface, engine 1 is still bound (the live set goes from
`[1]` to `[1, 2]`), and the run contains two constructions against four
destroy calls — not one destroy-then-initialization sequence per change
with the old instance detached before the new one attaches. -/
theorem c4_attachWhileOldStillBound :
    ((traceSched raceSched raceInit).get? 13).map (fun sys => sys.surf.live) = some [1]
    ∧ ((traceSched raceSched raceInit).get? 14).map (fun sys => sys.surf.live) = some [1, 2]
    ∧ ((runSched raceSched raceInit).events.filter isCreated).length = 2
    ∧ ((runSched raceSched raceInit).events.filter isDestroyCall).length = 4 := by
  decide

/-- Claim C5: with the video element mounted, setting the volume state to 0
always yields `isMuted = true` (the `[volume]` effect derives it), and
toggling mute while muted sets the volume to exactly 1 — not to any
previously held value — and unmutes. -/
theorem c5_volumeZeroMute (s : PlayerState) (hv : s.videoBound = true) :
    (s.volume ≠ 0 → (setVolumeState 0 s).1.isMuted = true)
    ∧ (s.isMuted = true → (toggleMute s).1.volume = 1 ∧ (toggleMute s).1.isMuted = false) := by
  constructor
  · intro h0
    rw [setVolumeState, if_neg (fun hh => h0 hh.symm)]
    simp [volumeEffect, hv]
  · intro hm
    by_cases h1 : (1 : Rat) = s.volume <;>
      simp [toggleMute, hv, hm, h1, volumeEffect]

/-- Claim C5, witness: from the muted state with volume 1, setting volume 0
mutes; toggling mute restores volume exactly 1 and unmutes. -/
theorem c5_volumeZeroMute_witness :
    (setVolumeState 0 mutedState).1.isMuted = true
    ∧ (toggleMute mutedState).1.volume = 1 ∧ (toggleMute mutedState).1.isMuted = false := by
  have h := c5_volumeZeroMute mutedState rfl
  exact ⟨h.1 (by decide), (h.2 rfl).1, (h.2 rfl).2⟩

/-- Claim C6: for the channel with drmKey `k1:v1` and the example manifest
URL, the engine receives the DRM `configure` call with `clearKeys` mapping
`k1` to `v1` at trace position 5, strictly before the `load` of the URL at
position 7 (the configure is awaited before load is called); and in
general a well-formed `keyId:key` string with colon-free components parses
into exactly those two components. -/
theorem c6_drmConfigureBeforeLoad :
    (initPlayer c6Channel happyEnv 1 freshState).2.get? 5 =
        some (Ev.engineConfigure 1 (ShakaConfig.drmOptions
          { clearKeys := [(k1Str, some v1Str)], retryParameters := drmRetryDefaults }))
    ∧ (initPlayer c6Channel happyEnv 1 freshState).2.get? 7 = some (Ev.engineLoad 1 demoUrl)
    ∧ 5 < 7
    ∧ (∀ a b : String, ':' ∉ a.data → ':' ∉ b.data →
        parseDrmKey (a ++ ":" ++ b) = (some a, some b)) := by
  refine ⟨by decide, by decide, by decide, ?_⟩
  intro a b ha hb
  simp [parseDrmKey, jsSplit_two a b ha hb]

/-- Claim C6, witness: the general parse applied to `abc123:deadbeef`. -/
theorem c6_drmConfigureBeforeLoad_witness :
    parseDrmKey (abcStr ++ ":" ++ beefStr) = (some abcStr, some beefStr) :=
  c6_drmConfigureBeforeLoad.2.2.2 abcStr beefStr (by decide) (by decide)

/-- Claim C7: whenever `initPlayer` reaches the load (video mounted,
library present, browser supported), the engine `load` is invoked exactly
once with the channel URL — no retry at this layer; on failure the error
is logged, the play command is never issued and the playing flag is left
as it was (the surface stays idle); on success playback starts and the
playing flag is set.  The model is a total function: no failure path
escapes as an exception. -/
theorem c7_loadOutcome (ch : Channel) (env : InitEnv) (newId : Nat) (s : PlayerState)
    (hv : s.videoBound = true) (hsl : env.shakaLoaded = true)
    (hbs : env.browserSupported = true) :
    (initPlayer ch env newId s).2.filter isEngineLoad = [Ev.engineLoad newId ch.url]
    ∧ (env.loadFails = true →
        (initPlayer ch env newId s).1.isPlaying = s.isPlaying
        ∧ Ev.videoPlay ∉ (initPlayer ch env newId s).2
        ∧ Ev.consoleError errLoadMsg ∈ (initPlayer ch env newId s).2)
    ∧ (env.loadFails = false →
        (initPlayer ch env newId s).1.isPlaying = true
        ∧ Ev.videoPlay ∈ (initPlayer ch env newId s).2) := by
  cases hlf : env.loadFails <;> cases hdf : env.destroyFails <;>
    cases hk : ch.drmKey <;> cases hr : s.shakaPlayerRef <;>
    simp [initPlayer, destroyPlayer, isEngineLoad, hv, hsl, hbs, hlf, hdf, hk, hr]

/-- Claim C7, witness: the theorem applied to the DRM-free channel in the
failing-load and the successful-load environments. -/
theorem c7_loadOutcome_witness :
    (initPlayer demoChannel failLoadEnv 3 freshState).2.filter isEngineLoad
        = [Ev.engineLoad 3 demoChannel.url]
    ∧ (initPlayer demoChannel failLoadEnv 3 freshState).1.isPlaying = freshState.isPlaying
    ∧ Ev.videoPlay ∉ (initPlayer demoChannel failLoadEnv 3 freshState).2
    ∧ (initPlayer demoChannel happyEnv 3 freshState).1.isPlaying = true := by
  have h1 := c7_loadOutcome demoChannel failLoadEnv 3 freshState rfl rfl rfl
  have h2 := c7_loadOutcome demoChannel happyEnv 3 freshState rfl rfl rfl
  exact ⟨h1.1, (h1.2.1 rfl).1, (h1.2.1 rfl).2.1, (h2.2.2 rfl).1⟩

/-- Claim C8: calling `destroyPlayer` when no session exists is a complete
no-op — the state is unchanged and no engine call, log line or error is
produced — whatever the destroy outcome parameter. -/
theorem c8_destroyNoSessionNoop (s : PlayerState) (f : Bool)
    (h : s.shakaPlayerRef = none) : destroyPlayer f s = (s, []) := by
  simp [destroyPlayer, h]

/-- Claim C8, witness: the no-op destroy on the fresh state. -/
theorem c8_destroyNoSessionNoop_witness : destroyPlayer true freshState = (freshState, []) :=
  c8_destroyNoSessionNoop freshState true rfl

/-- Claim C9, counterexample: the `ChannelControls` overlay dispatches only
`onPrevious`, `onNext` and `onShowChannels`; `onTogglePlay`,
`onToggleMute` and `onVolumeChange` are not in its props and are never
dispatched by it, and its output takes no playing/muted/volume input —
contradicting the claimed fixed callback set of six. -/
theorem c9_missingCallbacks_cex :
    ControlCallback.onTogglePlay ∉ dispatched (channelControls demoName)
    ∧ ControlCallback.onToggleMute ∉ dispatched (channelControls demoName)
    ∧ ControlCallback.onVolumeChange ∉ dispatched (channelControls demoName)
    ∧ dispatched (channelControls demoName) =
        [ControlCallback.onPrevious, ControlCallback.onNext, ControlCallback.onShowChannels] := by
  decide

/-- Claim C9 (amended): the `ChannelControls` overlay is a stateless pure
function of the channel name alone — its full rendered output is determined
by the name — and it dispatches exactly the fixed callback set
`onPrevious`, `onNext`, `onShowChannels`; the play/pause, mute and volume
controls live in the player component's own chrome, not in this overlay. -/
theorem c9_controlsPure_amended (channelName : String) :
    channelControls channelName =
      [ControlsNode.nameBadge channelName,
       ControlsNode.iconButton chevronLeftIcon ControlCallback.onPrevious,
       ControlsNode.iconButton chevronRightIcon ControlCallback.onNext,
       ControlsNode.iconButton listIcon ControlCallback.onShowChannels]
    ∧ dispatched (channelControls channelName) =
      [ControlCallback.onPrevious, ControlCallback.onNext, ControlCallback.onShowChannels] :=
  ⟨rfl, rfl⟩

/-- Claim C10: with no video element bound, `togglePlay` and `toggleMute`
are complete no-ops — playing flag, muted flag and volume unchanged, no
event and no error. -/
theorem c10_unboundSurfaceNoop (s : PlayerState) (h : s.videoBound = false) :
    togglePlay s = (s, []) ∧ toggleMute s = (s, []) := by
  simp [togglePlay, toggleMute, h]

/-- Claim C10, witness: both toggles on the unbound state. -/
theorem c10_unboundSurfaceNoop_witness :
    togglePlay unboundState = (unboundState, [])
    ∧ toggleMute unboundState = (unboundState, []) :=
  c10_unboundSurfaceNoop unboundState rfl

end ChannelSurf
